import Mathlib

/-!
Formal model of the collection-install driver and the revision-reconciliation
workflow (`src/util/InstallDriver.ts` and `src/eventHandlers.ts`).

The TypeScript code is shallowly embedded: the driver's mutable fields become a
`DriverState` record, every method becomes a pure function from state (plus an
`Env` record holding the values read from the host application's store and the
answers of blocking dialogs) to a new state together with the list of outbound
effects (`Event`s) the method emits.  JavaScript quirks that matter are kept:
the `rule.fileList?.length ?? 0 > 0` guard is modelled with the actual operator
precedence, the early `return !installerChoicesMatch` inside the required-rule
loop of `startImpl` is modelled as an abort of the whole computation, and the
unguarded divisions of `installProgress` are modelled over `Option Rat` where
`none` stands for a non-finite JavaScript number (NaN or Infinity).

Functions of this repository that the included sources import but whose file is
not part of the source tree (`util.ts`, `constants.ts`), and the host API's
reference matcher, are modelled from the spec; each such definition carries a
doc comment starting with "Modelled from the spec:".
-/

/-- A file below a package's install root together with its content hash,
as produced by the directory walk + `fileMD5Async` in `startImpl` and as
stored in a rule's `fileList` manifest. -/
structure FileEntry where
  path : String
  md5 : String
deriving DecidableEq, Repr

/-- A package reference descriptor (`IModReference`): several optional
discriminators, any of which may identify the target package. -/
structure ModReference where
  md5 : Option String := none
  repoModId : Option String := none
  repoFileId : Option String := none
  logicalName : Option String := none
  id : Option String := none
  fileSize : Option Nat := none
deriving DecidableEq, Repr

/-- A dependency rule of a collection (`IModRule`): `type` is
"requires", "recommends" or another rule type; `fileList` is the optional
file manifest; `installerChoices` the optional recorded installer options
(modelled as an association list of option name to chosen value). -/
structure ModRule where
  type : String
  reference : ModReference
  fileList : Option (List FileEntry) := none
  installerChoices : Option (List (String × String)) := none
  ignored : Bool := false
deriving DecidableEq, Repr

/-- An installed package (`IMod`) together with the attributes the driver
reads.  `state none` models the JavaScript `null` state; a package that is
absent altogether is `Option IMod = none` at the use sites.  `files` is the
content of the package's install root (the result of the directory walk). -/
structure IMod where
  id : String
  archiveId : Option String := none
  rules : List ModRule := []
  state : Option String := some "installed"
  fileSize : Nat := 0
  installedAsDependency : Bool := false
  installerChoices : Option (List (String × String)) := none
  files : List FileEntry := []
  md5 : Option String := none
  logicalName : Option String := none
  repoModId : Option String := none
  repoFileId : Option String := none
deriving DecidableEq, Repr

/-- The active profile (`IProfile`): only the fields the driver uses. -/
structure Profile where
  id : String
  gameId : String
deriving DecidableEq, Repr

/-- The driver's mutable session fields (`InstallDriver`'s `mProfile`,
`mCollection`, `mStep`, `mInstalledMods`, `mRequiredMods`, `mInstallingMod`,
`mInstallDone`, `mTotalSize`).  `totalSize none` models the field still being
`undefined`. -/
structure DriverState where
  profile : Option Profile := none
  collection : Option IMod := none
  step : String := "prepare"
  installedMods : List IMod := []
  requiredMods : List ModRule := []
  installingMod : Option String := none
  installDone : Bool := false
  totalSize : Option Nat := none
deriving DecidableEq, Repr

/-- The driver state right after construction. -/
def initialDriver : DriverState := {}

/-- Outbound effects of the driver and of the reconciliation workflow:
notifications, dialogs, store dispatches and the events emitted to the host
application. -/
inductive Event where
  | warnNotification (message : String)
  | activityNotification (id : String)
  | dismissNotification (id : String)
  | errorNotification (message : String)
  | dialogShown (title : String)
  | installDependencies (profileId : String) (gameId : String) (modIds : List String)
  | viewCollection (modId : String)
  | dispatchAction (name : String)
  | analytics
  | removeMods (gameId : String) (modIds : List String)
  | update
deriving DecidableEq, Repr

/-- Recognizer for the "begin dependency install" signal
(`install-dependencies`). -/
def isInstallDependencies : Event → Bool
  | Event.installDependencies _ _ _ => true
  | _ => false

/-- Recognizer for error notifications (`showErrorNotification`). -/
def isErrorNotification : Event → Bool
  | Event.errorNotification _ => true
  | _ => false

/-- Modelled from the spec: the Reference Matcher (`util.testModReference` of
the host API; spec section 4.1).  A reference matches a candidate package if
any discriminator (content hash, catalog repo modId+fileId pair, logical name,
explicit id) that is present on both sides agrees; a discriminator absent on
either side is skipped.  Repo-id matching requires both modId and fileId and
compares as strings. -/
def testModReference (m : IMod) (ref : ModReference) : Bool :=
  (match ref.md5, m.md5 with
   | some a, some b => a == b
   | _, _ => false)
  || (match ref.repoModId, ref.repoFileId, m.repoModId, m.repoFileId with
      | some rm, some rf, some mm, some mf => rm == mm && rf == mf
      | _, _, _, _ => false)
  || (match ref.logicalName, m.logicalName with
      | some a, some b => a == b
      | _, _ => false)
  || (match ref.id with
      | some i => i == m.id
      | none => false)

/-- Modelled from the spec: `util.findModByRef` of the host API — the first
installed package matching the reference (a reference matches at most one
installed package; spec section 3). -/
def findModByRef (mods : List IMod) (ref : ModReference) : Option IMod :=
  mods.find? (fun m => testModReference m ref)

/-- Modelled from the spec: `getUnfulfilledNotificationId` from `util/util.ts`
(not part of the source tree) — a stable notification id derived from the
collection id (spec section 6). -/
def getUnfulfilledNotificationId (modId : String) : String :=
  "collection-unfulfilled-" ++ modId

/-- Modelled from the spec: `INSTALLING_NOTIFICATION_ID` from `constants.ts`
(not part of the source tree) — the prefix of the progress-notification id,
completed by the collection id (spec section 6). -/
def installingNotificationId : String := "installing-collection-"

/-- An entry of the map built by `getModsEx`: the rule together with the
matching installed package, if any (JavaScript spreads `undefined` into an
object that only has `collectionRule`). -/
structure ModEx where
  mod : Option IMod
  collectionRule : ModRule
deriving DecidableEq, Repr

/-- `getModsEx`: one entry per `requires`/`recommends` rule of the collection,
paired with the installed package matching the rule's reference.  The source
builds an object keyed by `modRuleId(rule)`; distinct rules give distinct keys,
so the entries are modelled as a list. -/
def getModsEx (mods : List IMod) (c : IMod) : List ModEx :=
  (c.rules.filter (fun r => r.type == "requires" || r.type == "recommends")).map
    (fun r => { mod := findModByRef mods r.reference, collectionRule := r })

/-- Modelled from the spec: `isRelevant` from `util/util.ts` (not part of the
source tree) — an entry counts toward the totals unless it carries no real
requirement (spec section 4.2); an ignored rule requires nothing. -/
def isRelevant (me : ModEx) : Bool :=
  !me.collectionRule.ignored

/-- Modelled from the spec: `calculateCollectionSize` from `util/util.ts` (not
part of the source tree) — the total byte size of the relevant entries,
computed once at session start from the declared file sizes (spec section
4.2). -/
def calculateCollectionSize (modsEx : List ModEx) : Nat :=
  (modsEx.filter isRelevant).foldl
    (fun acc me => acc + (me.collectionRule.reference.fileSize.getD 0)) 0

/-- Everything the driver reads from the host application's store during one
operation, plus the answer a blocking dialog would return.  `revGameVersions`
is `this.mRevisionInfo?.gameVersions ?? []` as resolved in `startImpl`;
`ownCollection` tells whether the current user authored the collection
(suppressing the pending-vote dispatch). -/
structure Env where
  mods : List IMod := []
  downloads : List (String × Nat) := []
  gameVersion : String := ""
  revGameVersions : List String := []
  ownCollection : Bool := true
  dialogChoice : String := "Continue"
deriving Repr

/-- Division as observed on JavaScript numbers: `none` stands for a non-finite
result (`0 / 0` is NaN, `x / 0` is Infinity); both divisions in
`installProgress` are unguarded in the source. -/
def jsDiv (a b : Nat) : Option Rat := if b = 0 then none else some ((a : Rat) / (b : Rat))

/-- `installProgress`: download bytes accumulated over the rule entries (bytes
received while downloading or unresolved, the declared file size once past
that), divided by the cached `totalSize`, plus the installed-entry fraction of
the relevant entries, the sum scaled by 50.  `none` is a non-finite result. -/
def installProgress (env : Env) (totalSize : Option Nat) (c : IMod) : Option Rat :=
  let modsEx := getModsEx env.mods c
  let downloadProgress := modsEx.foldl
    (fun acc me =>
      acc + match me.mod with
        | some m =>
          if m.state = some "downloading" || m.state = none then
            match m.archiveId.bind (fun a => (env.downloads.find? (fun d => d.1 == a)).map Prod.snd) with
            | some received => received
            | none => 0
          else m.fileSize
        | none => 0) 0
  let installedCount := (modsEx.filter
    (fun me => match me.mod with
      | some m => m.state == some "installed"
      | none => false)).length
  let totalCount := (modsEx.filter isRelevant).length
  match totalSize with
  | none => none
  | some t =>
    match jsDiv downloadProgress t, jsDiv installedCount totalCount with
    | some dlPerc, some instPerc => some ((dlPerc + instPerc) * 50)
    | _, _ => none

/-- `updateProgress`: nothing when no collection is set; otherwise computes
`totalSize` if still unset and (re-)issues the activity notification whose
progress is `installProgress`. -/
def updateProgress (env : Env) (s : DriverState) : DriverState × List Event :=
  match s.collection with
  | none => (s, [])
  | some c =>
    let s1 := if s.totalSize.isNone
      then { s with totalSize := some (calculateCollectionSize (getModsEx env.mods c)) }
      else s
    (s1, [Event.activityNotification (installingNotificationId ++ c.id)])

/-- The game-version check of `startImpl`:
`(revGameVersions.length ?? 0 !== 0) && (revGameVersions.find(gvMatch) === undefined)`.
With JavaScript precedence the first conjunct parses as
`revGameVersions.length ?? (0 !== 0)`, i.e. the list is non-empty; the second
conjunct says no entry equals the installed game version. -/
def versionMismatch (env : Env) : Bool :=
  !env.revGameVersions.isEmpty
    && env.revGameVersions.all (fun gv => gv != env.gameVersion)

/-- The guard `rule.fileList?.length ?? 0 > 0` of `startImpl`.  With JavaScript
precedence it parses as `(rule.fileList?.length) ?? (0 > 0)`: an absent
manifest yields `false`, otherwise the length itself is the truth value, so
the manifest comparison runs exactly when the manifest is non-empty. -/
def fileListGuard (r : ModRule) : Bool :=
  match r.fileList with
  | none => false
  | some l => l.length != 0

/-- The required-rule loop of `startImpl` (`for (const rule of collection.rules)`).
For every `requires` rule: no matching installed package pushes the rule and
continues; a present, non-empty manifest that differs from the files on disk
pushes the rule and continues; otherwise the source executes
`return !installerChoicesMatch`, leaving the loop AND the surrounding function
(modelled as `Sum.inr` carrying the returned boolean) — the remaining rules are
never examined and `mRequiredMods` is never assigned. -/
def requiredLoop (mods : List IMod) : List ModRule → List ModRule → List ModRule ⊕ Bool
  | [], acc => Sum.inl acc
  | r :: rest, acc =>
    if r.type != "requires" then requiredLoop mods rest acc
    else
      match findModByRef mods r.reference with
      | none => requiredLoop mods rest (acc ++ [r])
      | some m =>
        if fileListGuard r && decide (m.files ≠ r.fileList.getD []) then
          requiredLoop mods rest (acc ++ [r])
        else
          Sum.inr (decide (r.installerChoices.getD [] ≠ m.installerChoices.getD []))

/-- `startImpl`: bails out (returning `false`) without an archive or profile;
otherwise resets the per-session fields, enters phase `start`, registers the
pending vote unless the user authored the collection, runs the game-version
dialog (Cancel marks the session done and returns `false`), then emits
`view-collection`, the progress notification, the rule-augmentation batch
dispatch, the unfulfilled-notification dismissal and the enable dispatch, and
finally runs the required-rule loop.  The third component is the JavaScript
return value (`none` models `undefined`). -/
def startImpl (env : Env) (s : DriverState) : DriverState × List Event × Option Bool :=
  match s.collection, s.profile with
  | some c, some _p =>
    if c.archiveId.isNone then (s, [], some false)
    else
      let s1 : DriverState :=
        { s with installedMods := [], installingMod := none,
                 installDone := false, step := "start" }
      let voteEvs := if env.ownCollection then [] else [Event.dispatchAction "setPendingVote"]
      let dialogEvs := if versionMismatch env then [Event.dialogShown "Different version"] else []
      if versionMismatch env && env.dialogChoice == "Cancel" then
        ({ s1 with installDone := true }, voteEvs ++ dialogEvs, some false)
      else
        let (s2, progressEvs) := updateProgress env s1
        let evs := voteEvs ++ dialogEvs
          ++ [Event.viewCollection c.id] ++ progressEvs
          ++ [Event.dispatchAction "addModRule",
              Event.dismissNotification (getUnfulfilledNotificationId c.id),
              Event.dispatchAction "setModEnabled"]
        match requiredLoop env.mods c.rules [] with
        | Sum.inr b => (s2, evs, some b)
        | Sum.inl req =>
          let s3 := { s2 with requiredMods := req }
          let s4 := if req.isEmpty then { s3 with installDone := false } else s3
          (s4, evs, none)
  | _, _ => (s, [], some false)

/-- `begin`: with a collection and a profile set, emits one
`install-dependencies` event for `[collection.id]` and enters phase
`installing`; otherwise does nothing. -/
def beginStep (s : DriverState) : DriverState × List Event × Option Bool :=
  match s.collection, s.profile with
  | some c, some p =>
    ({ s with step := "installing" },
     [Event.installDependencies p.id p.gameId [c.id]], none)
  | _, _ => (s, [], none)

/-- `canContinue`: `false` without a collection; in phase `installing` requires
`installDone`; in phase `disclaimer` requires an installed package or
`installDone`; every other phase allows continuing. -/
def canContinue (s : DriverState) : Bool :=
  match s.collection with
  | none => false
  | some _ =>
    if s.step == "installing" then s.installDone
    else if s.step == "disclaimer" then decide (s.installedMods.length > 0) || s.installDone
    else true

/-- `continue`: guarded by `canContinue` and the collection having an
`archiveId`; dispatches on the phase table (`query → startInstall`,
`start → begin`, `disclaimer → closeDisclaimers`,
`installing/recommendations → finishInstalling`, `review → close`; a phase
outside the table yields `undefined`), then fires the update callbacks unless
the step returned `false`.  `startInstall` only wraps `startImpl` in a
test-suppression scope, so it is modelled as `startImpl`; `close` clears the
collection, sets `installDone` and fires the update callbacks itself — it does
not change the phase. -/
def continueStep (env : Env) (s : DriverState) : DriverState × List Event :=
  if canContinue s && (s.collection.bind IMod.archiveId).isSome then
    let out :=
      if s.step == "query" then startImpl env s
      else if s.step == "start" then beginStep s
      else if s.step == "disclaimer" then ({ s with step := "installing" }, [], none)
      else if s.step == "installing" || s.step == "recommendations" then
        ({ s with step := "review" }, [], none)
      else if s.step == "review" then
        ({ s with collection := none, installDone := true }, [Event.update], none)
      else (s, [], none)
    (out.1, out.2.1 ++ if out.2.2 == some false then [] else [Event.update])
  else (s, [])

/-- `onStop`: dismisses the progress notification when a collection is set and
clears `mCollection`, `mProfile`, `mInstalledMods` and the phase — and nothing
else (`mRequiredMods`, `mInstallingMod`, `mInstallDone`, `mTotalSize` keep
their values). -/
def onStop (s : DriverState) : DriverState × List Event :=
  ({ s with collection := none, profile := none, installedMods := [], step := "prepare" },
   match s.collection with
   | some c => [Event.dismissNotification (installingNotificationId ++ c.id)]
   | none => [])

/-- `cancel`: `onStop` followed by the update callbacks. -/
def cancel (s : DriverState) : DriverState × List Event :=
  let (s1, evs) := onStop s
  (s1, evs ++ [Event.update])

/-- `query`: returns silently without an `archiveId`; warns and returns when a
session is active and not done; otherwise records profile and collection,
enters phase `query` and fires the update callbacks (`initCollectionInfo` only
fills the metadata cache and is not part of the session fields). -/
def query (p : Profile) (c : Option IMod) (s : DriverState) : DriverState × List Event :=
  match c with
  | none => (s, [])
  | some cc =>
    if cc.archiveId.isNone then (s, [])
    else if !s.installDone && s.collection.isSome then
      (s, [Event.warnNotification "Already installing a collection"])
    else
      ({ s with profile := some p, collection := some cc, step := "query" },
       [Event.update])

/-- `start`: returns silently without an `archiveId`; warns and returns when a
session is active and not done; otherwise records profile and collection,
computes `totalSize` from the full rule set, runs `startInstall` (= `startImpl`)
and fires the update callbacks. -/
def start (env : Env) (p : Profile) (c : Option IMod) (s : DriverState) :
    DriverState × List Event :=
  match c with
  | none => (s, [])
  | some cc =>
    if cc.archiveId.isNone then (s, [])
    else if !s.installDone && s.collection.isSome then
      (s, [Event.warnNotification "Already installing a collection"])
    else
      let s1 := { s with profile := some p, collection := some cc,
                         totalSize := some (calculateCollectionSize (getModsEx env.mods cc)) }
      let out := startImpl env s1
      (out.1, out.2.1 ++ [Event.update])

/-- `references` (local helper of `collectionUpdate`): some `requires` or
`recommends` rule of the list matches the package. -/
def references (rules : List ModRule) (m : IMod) : Bool :=
  rules.any (fun r =>
    (r.type == "requires" || r.type == "recommends") && testModReference m r.reference)

/-- The `candidates` of `collectionUpdate`: packages matched by a
`requires`/`recommends` rule of the old revision that are flagged
installed-as-dependency. -/
def candidates (mods : List IMod) (oldRules : List ModRule) : List IMod :=
  ((oldRules.filter (fun r => r.type == "requires" || r.type == "recommends")).filterMap
    (fun r => findModByRef mods r.reference)).filter
    (fun m => m.installedAsDependency)

/-- The `notCandidates` of `collectionUpdate`: every installed package that is
neither a candidate nor the old or new collection package. -/
def notCandidates (mods : List IMod) (cands : List IMod) (oldModId newModId : String) :
    List IMod :=
  mods.filter (fun m =>
    decide (m ∉ cands) && m.id != oldModId && m.id != newModId)

/-- The rule list of the package with the given id (`mods[newModId].rules`;
`references` tolerates an absent list via `rules ?? []`). -/
def rulesOfMod (mods : List IMod) (modId : String) : List ModRule :=
  ((mods.find? (fun m => m.id == modId)).map IMod.rules).getD []

/-- The `obsolete` computation of `collectionUpdate`: the candidates that the
new revision's rules do not reference and that no package in `notCandidates`
references. -/
def obsoleteMods (mods : List IMod) (oldRules : List ModRule) (oldModId newModId : String) :
    List IMod :=
  let cands := candidates mods oldRules
  let notC := notCandidates mods cands oldModId newModId
  (cands.filter (fun m => !references (rulesOfMod mods newModId) m)).filter
    (fun m => (notC.find? (fun other => references other.rules m)).isNone)

/-- A JavaScript error as discriminated by `collectionUpdate`: the distinguished
user-cancellation (`util.UserCanceled`), the `AlreadyDownloaded` failure of
`start-download` (carrying the existing file's name), or anything else. -/
inductive JsError where
  | userCanceled
  | alreadyDownloaded (fileName : String)
  | generic (message : String)
deriving DecidableEq, Repr

/-- The remote revision metadata `collectionUpdate` fetches. -/
structure RevisionMeta where
  slug : String
  revision : Nat
  collectionName : String
deriving DecidableEq, Repr

/-- The disposition of the obsolete packages chosen in the dialogs. -/
structure RemovalOps where
  remove : List String
  keep : List String
deriving DecidableEq, Repr

/-- The outcomes of every awaited external operation of one
`collectionUpdate` run, plus the dialog answers.  `modsBefore` is the package
map when the old revision's rules are read, `modsAfter` the map after the new
revision is installed.  `dialogInput` is `result.input` of the FIRST dialog —
the source's review branch reduces over `result.input` instead of
`reviewResult.input`, and the first dialog has no checkboxes, so it is empty
in practice; it is kept as a field to model the code as written. -/
structure UpdateEnv where
  gameId : String := ""
  collectionSlug : String := ""
  oldModId : String := ""
  modsBefore : List IMod := []
  modsAfter : List IMod := []
  revisionResult : Except JsError (Option RevisionMeta) := Except.error JsError.userCanceled
  urlsResult : Except JsError (List String) := Except.ok []
  downloadResult : Except JsError String := Except.ok ""
  downloadsByPath : List (String × String) := []
  installResult : Except JsError String := Except.ok ""
  dialogAction : String := "Keep All"
  reviewAction : String := "Keep All"
  dialogInput : List (String × Bool) := []
  removeResult : Except JsError Unit := Except.ok ()
deriving Repr

/-- The obsolete-package dialogs: nothing when no package is obsolete; one
dialog for Keep All / Remove All; a second dialog in the review branch.  The
review "Remove selected" branch folds over the first dialog's input (the bug
noted on `UpdateEnv.dialogInput`). -/
def resolveOps (env : UpdateEnv) (obs : List IMod) : List Event × RemovalOps :=
  if obs.length > 0 then
    let evs1 := [Event.dialogShown "Remove mods from old revision?"]
    if env.dialogAction == "Keep All" then (evs1, ⟨[], obs.map IMod.id⟩)
    else if env.dialogAction == "Remove All" then (evs1, ⟨obs.map IMod.id, []⟩)
    else
      let evs2 := evs1 ++ [Event.dialogShown "Remove mods from old revision?"]
      if env.reviewAction == "Keep All" then (evs2, ⟨[], obs.map IMod.id⟩)
      else
        (evs2, env.dialogInput.foldl
          (fun ops kv =>
            if kv.2 then ⟨ops.remove ++ [kv.1], ops.keep⟩
            else ⟨ops.remove, ops.keep ++ [kv.1]⟩)
          ⟨[], []⟩)
  else ([], ⟨[], []⟩)

/-- The body of `collectionUpdate` (everything inside its `try`): fetch and
validate the revision metadata, resolve the download, treat an
`AlreadyDownloaded` failure as success when the existing download is found,
install the new revision, compute the obsolete packages, run the dialogs, mark
the kept packages as manually installed (one batch dispatch) and remove the
old collection package together with the chosen packages.  Returns the events
emitted before the run ended and the error that escaped, if any (a missing
`mods[oldModId]` is the TypeError the source would raise reading `.rules`). -/
def collectionUpdateBody (env : UpdateEnv) : List Event × Option JsError :=
  match env.revisionResult with
  | Except.error e => ([], some e)
  | Except.ok none => ([], some (JsError.generic "Invalid revision"))
  | Except.ok (some latest) =>
    if latest.slug != env.collectionSlug then ([], some (JsError.generic "Invalid collection"))
    else
      match env.urlsResult with
      | Except.error e => ([], some e)
      | Except.ok _ =>
        let dlId : Except JsError String :=
          match env.downloadResult with
          | Except.ok d => Except.ok d
          | Except.error (JsError.alreadyDownloaded fn) =>
            match env.downloadsByPath.find? (fun p => p.2 == fn) with
            | some p => Except.ok p.1
            | none => Except.error (JsError.alreadyDownloaded fn)
          | Except.error e => Except.error e
        match dlId with
        | Except.error e => ([], some e)
        | Except.ok _ =>
          let evs1 := [Event.analytics]
          match env.modsBefore.find? (fun m => m.id == env.oldModId) with
          | none => (evs1, some (JsError.generic "TypeError"))
          | some oldMod =>
            match env.installResult with
            | Except.error e => (evs1, some e)
            | Except.ok newModId =>
              let obs := obsoleteMods env.modsAfter oldMod.rules env.oldModId newModId
              let (evs2, ops) := resolveOps env obs
              let evs3 := evs1 ++ evs2 ++ [Event.dispatchAction "setModAttribute"]
              let evs4 := evs3 ++ [Event.removeMods env.gameId (env.oldModId :: ops.remove)]
              match env.removeResult with
              | Except.error e => (evs4, some e)
              | Except.ok _ => (evs4, none)

/-- `collectionUpdate`: the body wrapped in the `try`/`catch` that swallows
`util.UserCanceled` silently and turns every other escaping error into the
single error notification. -/
def collectionUpdate (env : UpdateEnv) : List Event :=
  let out := collectionUpdateBody env
  match out.2 with
  | none => out.1
  | some JsError.userCanceled => out.1
  | some _ => out.1 ++ [Event.errorNotification "Failed to download collection"]

/-- `onCollectionUpdate`: ignores the signal unless it comes from the expected
catalog source with a defined revision number; otherwise queues
`collectionUpdate` on the driver's pending-operation chain.  The handler's own
`.catch` (a second error notification) is dead code: `collectionUpdate`
catches every error itself and its promise never rejects. -/
def onCollectionUpdateHandler (source : String) (revisionNumber : Option Nat)
    (env : UpdateEnv) : List Event :=
  if source != "nexus" || revisionNumber.isNone then []
  else collectionUpdate env

/-- An environment with nothing installed, no downloads and no remote
game-version constraints. -/
def env0 : Env := {}

/-- Profile fixture used by the concrete scenarios. -/
def profile1 : Profile := { id := "p1", gameId := "g1" }

/-- Reference to the package with id `A`. -/
def refA : ModReference := { id := some "A" }

/-- Reference to the package with id `C` (not installed in the scenarios). -/
def refC : ModReference := { id := some "C" }

/-- Reference to the package with id `D` (not installed in the scenarios). -/
def refD : ModReference := { id := some "D" }

/-- The single manifest file of the scenario rules. -/
def fileA : FileEntry := { path := "data/a.esp", md5 := "6a204bd89f3c8348afd5c77c717a097a" }

/-- `requires A` with a one-file manifest (scenario of C1). -/
def ruleA : ModRule := { type := "requires", reference := refA, fileList := some [fileA] }

/-- `requires C` (no matching installed package). -/
def ruleC : ModRule := { type := "requires", reference := refC }

/-- `recommends D` (no matching installed package). -/
def ruleD : ModRule := { type := "recommends", reference := refD }

/-- Package `A`, installed, whose install root holds exactly the manifest of
`ruleA` and whose installer choices match the rule's (both empty). -/
def modA : IMod := { id := "A", files := [fileA] }

/-- The collection of the C1 scenario: rules `[requires A, requires C,
recommends D]`. -/
def collectionB : IMod :=
  { id := "B", archiveId := some "archB", rules := [ruleA, ruleC, ruleD] }

/-- Environment of the C1 scenario: only `A` is installed. -/
def envC1 : Env := { mods := [modA] }

/-- Collection fixture for the session-rejection scenario (C2). -/
def collectionB2 : IMod := { id := "B2", archiveId := some "archB2" }

/-- A driver state with an active, unfinished session on `collectionB2`. -/
def sC2 : DriverState :=
  { initialDriver with profile := some profile1, collection := some collectionB2 }

/-- A second collection whose `start` must be rejected while `sC2` is active. -/
def collectionB2b : IMod := { id := "B2b", archiveId := some "archB2b" }

/-- A collection with an `archiveId` but no rules at all (C3): its relevant
set is empty and its computed total size is 0. -/
def emptyCollection : IMod := { id := "E", archiveId := some "archE" }

/-- `requires A` whose manifest matches but whose installer choices differ
from the installed package's recorded choices (C4). -/
def ruleA4 : ModRule :=
  { type := "requires", reference := refA, fileList := some [fileA],
    installerChoices := some [("mode", "full")] }

/-- Package `A` with identical files but different recorded installer
choices. -/
def modA4 : IMod :=
  { id := "A", files := [fileA], installerChoices := some [("mode", "lite")] }

/-- Collection whose single rule is `ruleA4`. -/
def collectionB4 : IMod := { id := "B4", archiveId := some "archB4", rules := [ruleA4] }

/-- Environment of the C4 scenario. -/
def envC4 : Env := { mods := [modA4] }

/-- Session state on `collectionB4`, ready for `startImpl`. -/
def sC4 : DriverState :=
  { initialDriver with profile := some profile1, collection := some collectionB4,
                       totalSize := some 0 }

/-- Collection fixture for the version-mismatch scenario (C5). -/
def collectionB5 : IMod := { id := "B5", archiveId := some "archB5" }

/-- Environment of the C5 scenario: the revision declares game version 1.0,
the installed game version is 2.0, and the user answers Cancel. -/
def envC5 : Env :=
  { gameVersion := "2.0", revGameVersions := ["1.0"], dialogChoice := "Cancel" }

/-- Session state on `collectionB5`, ready for `startImpl`. -/
def sC5 : DriverState :=
  { initialDriver with profile := some profile1, collection := some collectionB5 }

/-- Collection fixture for the review-phase scenario (C6). -/
def collectionB6 : IMod := { id := "B6", archiveId := some "archB6" }

/-- A session sitting in the `review` phase. -/
def sC6 : DriverState :=
  { initialDriver with profile := some profile1, collection := some collectionB6,
                       step := "review" }

/-- Reference to the former dependency `Y` (C7). -/
def refY : ModReference := { id := some "Y" }

/-- Reference to the package `Z` (C7). -/
def refZ : ModReference := { id := some "Z" }

/-- Former dependency `Y`, flagged installed-as-dependency, referenced by
nobody but `Z`. -/
def modY : IMod := { id := "Y", installedAsDependency := true }

/-- Package `Z`: flagged installed-as-dependency (hence itself a candidate)
and carrying a `requires Y` rule. -/
def modZ : IMod :=
  { id := "Z", installedAsDependency := true,
    rules := [{ type := "requires", reference := refY }] }

/-- The old collection `X`, whose rules depend on `Y` and `Z`. -/
def oldCollectionX : IMod :=
  { id := "X",
    rules := [{ type := "requires", reference := refY },
              { type := "requires", reference := refZ }] }

/-- The new revision `N`, whose rules reference nothing. -/
def newCollectionN : IMod := { id := "N" }

/-- The installed-package map of the C7 scenario. -/
def modsC7 : List IMod := [oldCollectionX, newCollectionN, modY, modZ]

/-- Collection fixture for the cancel scenario (C8). -/
def collectionB8 : IMod := { id := "B8", archiveId := some "archB8" }

/-- A mid-install session with a non-empty required list, a marked installing
archive, `installDone` set and a cached total size (C8). -/
def sC8 : DriverState :=
  { profile := some profile1, collection := some collectionB8, step := "installing",
    installedMods := [], requiredMods := [ruleC], installingMod := some "arch1.7z",
    installDone := true, totalSize := some 42 }

/-- A collection value without an `archiveId` (C10). -/
def noArchiveCollection : IMod := { id := "NA" }

/-- C1: in the scenario `[requires A, requires C, recommends D]` with `A`
installed and fulfilled, the spec demands `requiredRules = [C]`.  The code
instead executes `return !installerChoicesMatch` at rule `A`, leaving
`startImpl` before rule `C` is ever examined, so the required list stays
empty; the `start → installing` advance does still emit exactly one
`install-dependencies` signal for `[B]`. -/
theorem c1_requiredRules_code_bug :
    (start envC1 profile1 (some collectionB) initialDriver).1.requiredMods = []
      ∧ (start envC1 profile1 (some collectionB) initialDriver).1.requiredMods ≠ [ruleC]
      ∧ (start envC1 profile1 (some collectionB) initialDriver).1.step = "start"
      ∧ (continueStep envC1
          (start envC1 profile1 (some collectionB) initialDriver).1).2.filter
          isInstallDependencies = [Event.installDependencies "p1" "g1" ["B"]] := by
  refine ⟨rfl, ?_, rfl, rfl⟩
  decide

/-- C3: a session started on a collection with no dependency rules has
`totalSize = 0` and an empty relevant set; `installProgress` divides by both
without a guard, so the result is non-finite (`none` models NaN) instead of
the 0 the spec demands. -/
theorem c3_progress_nan_code_bug :
    (start env0 profile1 (some emptyCollection) initialDriver).1.totalSize = some 0
      ∧ installProgress env0
          (start env0 profile1 (some emptyCollection) initialDriver).1.totalSize
          emptyCollection = none := ⟨rfl, rfl⟩

/-- C4: a `requires` rule whose manifest matches the installed files but whose
installer choices differ must, per the spec, be forced into the required set.
The code instead executes `return !installerChoicesMatch` — `startImpl`
returns `true` and the rule is never added to `mRequiredMods`. -/
theorem c4_installer_choices_code_bug :
    (startImpl envC4 sC4).2.2 = some true
      ∧ (startImpl envC4 sC4).1.requiredMods = []
      ∧ ruleA4 ∉ (startImpl envC4 sC4).1.requiredMods := by
  refine ⟨rfl, rfl, ?_⟩
  decide

/-- C5 counterexample: when the game-version dialog is answered with Cancel,
the claim says the phase ends at `prepare`; on the code the phase was already
set to `start` at the top of `startImpl` and the Cancel path never resets it,
so the session ends with `installDone = true` but phase `start`. -/
theorem c5_counterexample :
    (startImpl envC5 sC5).1.installDone = true
      ∧ (startImpl envC5 sC5).1.step = "start"
      ∧ (startImpl envC5 sC5).1.step ≠ "prepare"
      ∧ (startImpl envC5 sC5).2.1.filter isInstallDependencies = [] := by
  refine ⟨rfl, rfl, ?_, rfl⟩
  decide

/-- C6 counterexample: from the `review` phase one `continue()` runs `close`,
which clears the collection and sets `installDone` but leaves the phase at
`review`; the resulting state cannot continue any further (every later
`continue()` is the identity), so repeated calls never reach `prepare`. -/
theorem c6_counterexample :
    (continueStep env0 sC6).1.step = "review"
      ∧ (continueStep env0 sC6).1.step ≠ "prepare"
      ∧ (continueStep env0 sC6).1.installDone = true
      ∧ continueStep env0 (continueStep env0 sC6).1 = ((continueStep env0 sC6).1, []) := by
  refine ⟨rfl, ?_, rfl, rfl⟩
  decide

/-- C7 counterexample: `Z` is installed, distinct from the old package `X` and
the new package `N`, and references `Y` — yet `Y` is still classified
obsolete, because `Z` is itself a candidate (installed-as-dependency and
referenced by the old rules) and the code only consults `notCandidates` when
looking for surviving referrers. -/
theorem c7_counterexample :
    references modZ.rules modY = true
      ∧ modZ.id ≠ "X"
      ∧ modZ.id ≠ "N"
      ∧ modZ ∈ modsC7
      ∧ modY ∈ obsoleteMods modsC7 oldCollectionX.rules "X" "N" := by
  refine ⟨rfl, ?_, ?_, ?_, ?_⟩ <;> decide

/-- C8 counterexample: `cancel()` is claimed to clear all session fields; on
the code `onStop` resets only the collection, profile, installed list and
phase — the required-rule list, the installing marker, `installDone` and
`totalSize` keep their values. -/
theorem c8_counterexample :
    (cancel sC8).1.step = "prepare"
      ∧ (cancel sC8).1.requiredMods = [ruleC]
      ∧ (cancel sC8).1.requiredMods ≠ []
      ∧ (cancel sC8).1.installingMod = some "arch1.7z"
      ∧ (cancel sC8).1.installDone = true
      ∧ (cancel sC8).1.totalSize = some 42 := by
  refine ⟨rfl, rfl, ?_, rfl, rfl, rfl⟩
  decide

/-- C2: while a session is active (collection set) and not done, a second
`start` is rejected: the state is returned untouched (only the warning
notification fires) and no `install-dependencies` signal is emitted. -/
theorem c2_second_start_rejected (env : Env) (p2 : Profile) (c2 : Option IMod)
    (s : DriverState) (hActive : s.collection.isSome = true)
    (hNotDone : s.installDone = false) :
    (start env p2 c2 s).1 = s
      ∧ (start env p2 c2 s).2.filter isInstallDependencies = [] := by
  cases c2 with
  | none => exact ⟨rfl, rfl⟩
  | some cc =>
    by_cases h : cc.archiveId.isNone
    · constructor <;> simp [start, h]
    · constructor <;>
        simp [start, h, hActive, hNotDone, isInstallDependencies, List.filter]

/-- C2 witness: the guard holds on the concrete active session `sC2` and the
second `start` leaves it untouched without a dependency-install signal. -/
theorem c2_second_start_rejected_witness :
    (sC2.collection.isSome = true ∧ sC2.installDone = false)
      ∧ (start env0 profile1 (some collectionB2b) sC2).1 = sC2
      ∧ (start env0 profile1 (some collectionB2b) sC2).2.filter
          isInstallDependencies = [] := by
  have h := c2_second_start_rejected env0 profile1 (some collectionB2b) sC2 rfl rfl
  exact ⟨⟨rfl, rfl⟩, h.1, h.2⟩

/-- C5 amended: whenever the game-version dialog is shown during `startImpl`
and the user answers Cancel, the session ends with `installDone = true` and
phase `start` (all other session fields reset as on entry, the phase is NOT
reset to `prepare`), `startImpl` returns `false`, and no
`install-dependencies` signal is emitted by it. -/
theorem c5_version_cancel_amended (env : Env) (s : DriverState) (c : IMod) (p : Profile)
    (hc : s.collection = some c) (hp : s.profile = some p)
    (ha : c.archiveId.isNone = false)
    (hm : versionMismatch env = true) (hx : env.dialogChoice = "Cancel") :
    startImpl env s =
      ({ s with installedMods := [], installingMod := none,
                installDone := true, step := "start" },
       (if env.ownCollection then [] else [Event.dispatchAction "setPendingVote"])
         ++ [Event.dialogShown "Different version"], some false)
      ∧ (startImpl env s).2.1.filter isInstallDependencies = [] := by
  have hmain : startImpl env s =
      ({ s with installedMods := [], installingMod := none,
                installDone := true, step := "start" },
       (if env.ownCollection then [] else [Event.dispatchAction "setPendingVote"])
         ++ [Event.dialogShown "Different version"], some false) := by
    simp [startImpl, hc, hp, ha, hm, hx]
  refine ⟨hmain, ?_⟩
  rw [hmain]
  cases env.ownCollection <;> simp [isInstallDependencies, List.filter]

/-- C5 witness: the amended behaviour at the concrete mismatch scenario. -/
theorem c5_version_cancel_amended_witness :
    (sC5.collection = some collectionB5 ∧ versionMismatch envC5 = true
      ∧ envC5.dialogChoice = "Cancel")
      ∧ (startImpl envC5 sC5).1.installDone = true
      ∧ (startImpl envC5 sC5).1.step = "start"
      ∧ (startImpl envC5 sC5).2.1.filter isInstallDependencies = [] := by
  have h := c5_version_cancel_amended envC5 sC5 collectionB5 profile1
    rfl rfl rfl (by decide) rfl
  refine ⟨⟨rfl, by decide, rfl⟩, ?_, ?_, h.2⟩
  · rw [h.1]
  · rw [h.1]

/-- C6 amended: `continue()` with `canContinue()` false is a strict no-op (no
state change, no notification or event); from the `review` phase one
`continue()` clears the collection and sets `installDone = true` while the
phase stays `review` (it is never reset to `prepare` — that only happens in
`onStop`), and the resulting state can no longer continue, so every further
`continue()` is again a no-op. -/
theorem c6_continue_amended (env : Env) (s : DriverState) :
    (canContinue s = false → continueStep env s = (s, []))
      ∧ (s.step = "review" → (s.collection.bind IMod.archiveId).isSome = true →
          (continueStep env s).1 =
              { s with collection := none, installDone := true }
            ∧ (continueStep env s).1.step = s.step
            ∧ continueStep env (continueStep env s).1 = ((continueStep env s).1, [])) := by
  constructor
  · intro h
    simp [continueStep, h]
  · intro hstep harch
    obtain ⟨c, hc⟩ : ∃ c, s.collection = some c := by
      cases h : s.collection with
      | none => rw [h] at harch; simp at harch
      | some c => exact ⟨c, rfl⟩
    have hcan : canContinue s = true := by
      simp [canContinue, hc, hstep]
    have h1 : continueStep env s =
        ({ s with collection := none, installDone := true }, [Event.update, Event.update]) := by
      simp [continueStep, hcan, harch, hstep]
    refine ⟨by rw [h1], by rw [h1], ?_⟩
    rw [h1]
    simp [continueStep, canContinue]

/-- C6 witness: the no-op half at the fresh driver (no collection, so
`canContinue` is false) and the review half at the concrete review session. -/
theorem c6_continue_amended_witness :
    (canContinue initialDriver = false
      ∧ continueStep env0 initialDriver = (initialDriver, []))
      ∧ (sC6.step = "review"
      ∧ (sC6.collection.bind IMod.archiveId).isSome = true
      ∧ (continueStep env0 sC6).1 = { sC6 with collection := none, installDone := true }
      ∧ continueStep env0 (continueStep env0 sC6).1 = ((continueStep env0 sC6).1, [])) := by
  have h1 := (c6_continue_amended env0 initialDriver).1 rfl
  have h2 := (c6_continue_amended env0 sC6).2 rfl rfl
  exact ⟨⟨rfl, h1⟩, rfl, rfl, h2.1, h2.2.2⟩

/-- C7 amended: a package is in the obsolete list iff it is a candidate (a
dependency of the old revision flagged installed-as-dependency), the new
revision's rule set does not reference it, and no package in `notCandidates`
(installed packages that are neither candidates nor the old or new collection
package) references it.  A referrer that is itself a candidate does not keep a
package alive. -/
theorem c7_obsolete_amended (mods : List IMod) (oldRules : List ModRule)
    (oldModId newModId : String) (m : IMod) :
    m ∈ obsoleteMods mods oldRules oldModId newModId ↔
      m ∈ candidates mods oldRules
        ∧ references (rulesOfMod mods newModId) m = false
        ∧ ∀ z ∈ notCandidates mods (candidates mods oldRules) oldModId newModId,
            references z.rules m = false := by
  simp [obsoleteMods, List.mem_filter, Option.isNone_iff_eq_none, List.find?_eq_none,
        Bool.not_eq_true', and_assoc]
  tauto

/-- C8 amended: from any state, `cancel()` dismisses the progress notification
(when a collection is set), clears the collection, the profile and the
installed-mod list, resets the phase to `prepare` and notifies the update
observers — while the required-rule list, the installing marker, `installDone`
and `totalSize` are left unchanged. -/
theorem c8_cancel_amended (s : DriverState) :
    cancel s =
      ({ s with collection := none, profile := none, installedMods := [],
                step := "prepare" },
       (match s.collection with
        | some c => [Event.dismissNotification (installingNotificationId ++ c.id)]
        | none => []) ++ [Event.update])
      ∧ (cancel s).1.requiredMods = s.requiredMods
      ∧ (cancel s).1.installingMod = s.installingMod
      ∧ (cancel s).1.installDone = s.installDone
      ∧ (cancel s).1.totalSize = s.totalSize := by
  cases h : s.collection <;> simp [cancel, onStop, h]

/-- The obsolete-package dialogs never emit an error notification. -/
theorem resolveOps_no_errorNotification (env : UpdateEnv) (obs : List IMod) :
    (resolveOps env obs).1.filter isErrorNotification = [] := by
  simp only [resolveOps]
  repeat' split
  all_goals simp [isErrorNotification, List.filter]

/-- The body of `collectionUpdate` never emits an error notification itself;
the only error notification comes from the surrounding `catch`. -/
theorem collectionUpdateBody_no_errorNotification (env : UpdateEnv) :
    (collectionUpdateBody env).1.filter isErrorNotification = [] := by
  simp only [collectionUpdateBody]
  repeat' split
  all_goals
    simp [isErrorNotification, List.filter, List.filter_append,
          resolveOps_no_errorNotification]

/-- C9: over a whole `collectionUpdate` run, a body that ends in a
user-cancellation (or succeeds) produces no error notification, and a body
that ends in any other error produces exactly the one notification naming the
failed operation. -/
theorem c9_error_notification_policy (env : UpdateEnv) :
    (collectionUpdate env).filter isErrorNotification =
      (match (collectionUpdateBody env).2 with
       | none => []
       | some JsError.userCanceled => []
       | some _ => [Event.errorNotification "Failed to download collection"]) := by
  cases h : (collectionUpdateBody env).2 with
  | none =>
    simp [collectionUpdate, h, collectionUpdateBody_no_errorNotification]
  | some e =>
    cases e <;>
      simp [collectionUpdate, h, List.filter_append,
            collectionUpdateBody_no_errorNotification, isErrorNotification, List.filter]

/-- C10: `query` and `start` on an undefined collection, or on a collection
without an `archiveId`, return silently: the state is untouched and no event,
notification or signal is produced. -/
theorem c10_missing_archive_noop (env : Env) (p : Profile) (c : Option IMod)
    (s : DriverState) (h : c.bind IMod.archiveId = none) :
    query p c s = (s, []) ∧ start env p c s = (s, []) := by
  cases c with
  | none => exact ⟨rfl, rfl⟩
  | some cc =>
    have ha : cc.archiveId = none := by simpa using h
    constructor <;> simp [query, start, ha]

/-- C10 witness: the no-op behaviour at a concrete collection value that
carries no `archiveId`. -/
theorem c10_missing_archive_noop_witness :
    (some noArchiveCollection).bind IMod.archiveId = none
      ∧ query profile1 (some noArchiveCollection) initialDriver = (initialDriver, [])
      ∧ start env0 profile1 (some noArchiveCollection) initialDriver
          = (initialDriver, []) := by
  have h := c10_missing_archive_noop env0 profile1 (some noArchiveCollection)
    initialDriver rfl
  exact ⟨rfl, h.1, h.2⟩

/-- C7 witness: the characterization instantiated at the concrete scenario —
`Y` satisfies all three conditions, hence is obsolete. -/
theorem c7_obsolete_amended_witness :
    modY ∈ candidates modsC7 oldCollectionX.rules
      ∧ references (rulesOfMod modsC7 "N") modY = false
      ∧ modY ∈ obsoleteMods modsC7 oldCollectionX.rules "X" "N" := by
  refine ⟨by decide, by decide, ?_⟩
  exact (c7_obsolete_amended modsC7 oldCollectionX.rules "X" "N" modY).mpr
    ⟨by decide, by decide, by decide⟩
